import Mathlib

/-!
Shallow embedding of `src/server.js` of samueldavidyoung-prog/road-tracker.

Timestamps are modelled as `Int`, the number of milliseconds since the Unix
epoch, matching JavaScript `Date.prototype.getTime` / `toISOString` up to the
bijection between valid ISO-8601 strings and their epoch offsets.  A field
that may be absent (or `null`) in a JSON value is modelled as an `Option`.

The Supabase REST adapter is modelled as an explicit tabular store
(`List Row`) plus a boolean `ok` telling whether the HTTP round trip to the
store succeeded; on `ok = false` every repository function takes its `catch`
branch exactly as in the source, leaving the store unchanged.
-/

namespace RoadTracker

/-- A segment `{duration: minutes, ...}`; `s.duration || 0` in the source
treats an absent (or zero) duration as 0. -/
structure Segment where
  duration : Option Int
  deriving Repr, DecidableEq

/-- A delay `{minutes: n, ...}`; `d.minutes || 0` treats absent as 0. -/
structure Delay where
  minutes : Option Int
  deriving Repr, DecidableEq

/-- The API-side job shape (camelCase fields), §3 of the spec and the JSON
bodies accepted by the routes.  `segments = none` models a value that is not
an array (the source guards with `Array.isArray`). -/
structure Job where
  id : String
  name : String
  startTime : Option Int
  segments : Option (List Segment)
  delays : Option (List Delay)
  nextSegmentId : Option Int
  createdAt : Option Int
  lastUpdated : Option Int
  expiresAt : Option Int
  deriving Repr, DecidableEq

/-- The store-side row shape (snake_case columns), as built by `createJob`
and read back by `rowToJob`. -/
structure Row where
  job_id : String
  name : String
  start_time : Option Int
  segments : Option (List Segment)
  delays : Option (List Delay)
  next_segment_id : Option Int
  created_at : Option Int
  last_updated : Option Int
  expires_at : Option Int
  deriving Repr, DecidableEq

/-- JavaScript `v || d` for an optional number: absent and `0` are falsy. -/
def jsOr (v : Option Int) (d : Int) : Int :=
  match v with
  | none => d
  | some n => if n = 0 then d else n

/-- The `job.segments` summation of `calculateExpiresAt`:
`job.segments.forEach(s => totalMinutes += s.duration || 0)`, guarded by
`Array.isArray`. -/
def segmentMinutes (segs : Option (List Segment)) : Int :=
  match segs with
  | none => 0
  | some l => l.foldl (fun acc s => acc + s.duration.getD 0) 0

/-- The reduction `job.delays.reduce((sum, d) => sum + (d.minutes || 0), 0)`, guarded by
`Array.isArray`. -/
def delayMinutes (ds : Option (List Delay)) : Int :=
  match ds with
  | none => 0
  | some l => l.foldl (fun acc d => acc + d.minutes.getD 0) 0

/-- Function `calculateExpiresAt` (server.js:106-119): `null` when `startTime` is
absent, otherwise `startTime + (totalMinutes + totalDelays + 24*60)` minutes,
with a minute being 60000 ms. -/
def calculateExpiresAt (job : Job) : Option Int :=
  match job.startTime with
  | none => none
  | some start =>
      some (start + (segmentMinutes job.segments + delayMinutes job.delays + 24 * 60) * 60000)

/-- Function `rowToJob` (server.js:92-104); the only defaulting is `row.delays || []`
(an empty array is truthy in JavaScript, so it is kept). -/
def rowToJob (row : Row) : Job :=
  { id := row.job_id
    name := row.name
    startTime := row.start_time
    segments := row.segments
    delays := some (row.delays.getD [])
    nextSegmentId := row.next_segment_id
    createdAt := row.created_at
    lastUpdated := row.last_updated
    expiresAt := row.expires_at }

/-- The row inserted by `createJob` (server.js:123-133), given the value of
`new Date().toISOString()` as `now`. -/
def createRow (job : Job) (now : Int) : Row :=
  { job_id := job.id
    name := job.name
    start_time := job.startTime
    segments := job.segments
    delays := some (job.delays.getD [])
    next_segment_id := some (jsOr job.nextSegmentId 6)
    created_at := some (jsOr job.createdAt now)
    last_updated := some now
    expires_at := calculateExpiresAt job }

/-- Function `createJob` (server.js:121-140): inserts `createRow`, then returns the
*supplied* `job` object unchanged; on adapter failure returns `null` and the
store is untouched.  Result: (returned value, store after the call). -/
def createJob (store : List Row) (job : Job) (now : Int) (ok : Bool) :
    Option Job × List Row :=
  if ok then (some job, store ++ [createRow job now]) else (none, store)

/-- The effect of the PATCH body of `updateJob` (server.js:144-152) on one
matching row: Supabase PATCH writes exactly the listed columns, so `job_id`
and `created_at` are kept from `row`. -/
def applyUpdateRow (row : Row) (job : Job) (now : Int) : Row :=
  { row with
    name := job.name
    start_time := job.startTime
    segments := job.segments
    delays := some (job.delays.getD [])
    next_segment_id := some (jsOr job.nextSegmentId 6)
    last_updated := some now
    expires_at := calculateExpiresAt job }

/-- Adapter call PATCH on jobs filtered by job_id: every row whose `job_id` equals `id`
receives the partial update; all other rows are untouched. -/
def patchById (store : List Row) (id : String) (job : Job) (now : Int) : List Row :=
  store.map (fun r => if r.job_id = id then applyUpdateRow r job now else r)

/-- Function `updateJob` (server.js:142-159): on adapter success returns
`{ ...job, lastUpdated: row.last_updated }`; on failure returns `null`.
The result is independent of whether any row matched the id filter. -/
def updateJob (store : List Row) (id : String) (job : Job) (now : Int) (ok : Bool) :
    Option Job × List Row :=
  if ok then (some { job with lastUpdated := some now }, patchById store id job now)
  else (none, store)

/-- Adapter call DELETE on jobs filtered by job_id. -/
def deleteById (store : List Row) (id : String) : List Row :=
  store.filter (fun r => r.job_id ≠ id)

/-- Function `deleteJob` (server.js:161-169): returns whether the adapter call
succeeded, regardless of whether a matching row existed. -/
def deleteJob (store : List Row) (id : String) (ok : Bool) : Bool × List Row :=
  if ok then (true, deleteById store id) else (false, store)

/-- Function `getJob` (server.js:81-90), a GET filtered by job_id followed by taking the first row:
the first matching row, converted; `null` on zero rows or adapter failure. -/
def getJob (store : List Row) (id : String) (ok : Bool) : Option Job :=
  if ok then
    match store.filter (fun r => r.job_id = id) with
    | [] => none
    | r :: _ => some (rowToJob r)
  else none

/-- JavaScript object assignment `jobs[k] = v`: overwrites the binding of an
existing key in place, otherwise appends. -/
def objSet (m : List (String × Job)) (k : String) (v : Job) : List (String × Job) :=
  if m.any (fun p => p.1 = k) then m.map (fun p => if p.1 = k then (k, v) else p)
  else m ++ [(k, v)]

/-- Function `getAllJobs` (server.js:65-79): `rows = none` models adapter failure (the
`catch` branch) or a non-array payload, both of which yield the empty
mapping; otherwise each row is entered under its `job_id`. -/
def getAllJobs (rows : Option (List Row)) : List (String × Job) :=
  match rows with
  | none => []
  | some l => l.foldl (fun m r => objSet m r.job_id (rowToJob r)) []

/-- The filter of the cleanup DELETE adapter call (server.js:174),
expires_at=lt.now combined with expires_at=not.is.null: `expires_at` non-null and strictly below `now`. -/
def expiredAt (now : Int) (r : Row) : Bool :=
  match r.expires_at with
  | none => false
  | some e => decide (e < now)

/-- Function `cleanupExpiredJobs` (server.js:171-179): deletes the expired rows; on
adapter failure the error is logged and the store is unchanged. -/
def cleanupExpiredJobs (store : List Row) (now : Int) (ok : Bool) : List Row :=
  if ok then store.filter (fun r => !expiredAt now r) else store

/-- Interval of `setInterval(cleanupExpiredJobs, 60 * 60 * 1000)`
(server.js:182), in milliseconds. -/
def cleanupIntervalMs : Nat := 60 * 60 * 1000

/-- Idealized invocation schedule of the cleanup timer: the source calls
`cleanupExpiredJobs()` once synchronously at module load (server.js:183) and
`setInterval` then fires every `cleanupIntervalMs` for the life of the
process; invocation `n` happens `n * cleanupIntervalMs` ms after start.  The
schedule takes no input from the request path. -/
def schedulerInvocationMs (n : Nat) : Nat := n * cleanupIntervalMs

/-- A JSON response body of the API layer. -/
inductive RespBody
  | jsonOf : Option Job → RespBody
  | mapping : List (String × Job) → RespBody
  | errorMsg : String → RespBody
  | successFlag : RespBody
  deriving Repr, DecidableEq

/-- Route GET /api/jobs (server.js:227-232): always 200 with the mapping. -/
def getJobsRoute (rows : Option (List Row)) : Nat × RespBody :=
  (200, RespBody.mapping (getAllJobs rows))

/-- Route POST /api/jobs (server.js:247-253): `body = none` models a JSON parse
failure of `readBody`, which rejects into the outer catch (500); otherwise
the route writes 201 unconditionally with `JSON.stringify(created)` —
`created` being `null` when the adapter failed. -/
def postJobsRoute (store : List Row) (body : Option Job) (now : Int) (ok : Bool) :
    Nat × RespBody × List Row :=
  match body with
  | none => (500, RespBody.errorMsg "Internal server error", store)
  | some job =>
      let r := createJob store job now ok
      (201, RespBody.jsonOf r.1, r.2)

/-- Route PUT /api/jobs/:id (server.js:255-267): 200 with the updated job when
`updateJob` returned a value, 404 otherwise. -/
def putJobRoute (store : List Row) (id : String) (body : Option Job) (now : Int)
    (ok : Bool) : Nat × RespBody × List Row :=
  match body with
  | none => (500, RespBody.errorMsg "Internal server error", store)
  | some job =>
      let r := updateJob store id job now ok
      match r.1 with
      | some u => (200, RespBody.jsonOf (some u), r.2)
      | none => (404, RespBody.errorMsg "Job not found", r.2)

/-- Days between 1970-01-01 and the Gregorian date `y-m-d` (valid for dates
from the epoch on; used only to spell concrete ISO timestamps as epoch
milliseconds). -/
def daysSinceEpoch (y m d : Nat) : Nat :=
  let y' := if m ≤ 2 then y - 1 else y
  let era := y' / 400
  let yoe := y' - era * 400
  let mp := if 2 < m then m - 3 else m + 9
  let doy := (153 * mp + 2) / 5 + d - 1
  let doe := yoe * 365 + yoe / 4 - yoe / 100 + doy
  era * 146097 + doe - 719468

/-- Epoch milliseconds of the UTC instant `y-m-d hh:mi:00Z`. -/
def utcMillis (y m d hh mi : Nat) : Int :=
  (daysSinceEpoch y m d * 86400000 + (hh * 60 + mi) * 60000 : Nat)

/-- The example job `J1` of the spec (§8). -/
def exampleJob : Job :=
  { id := "J1"
    name := ""
    startTime := some (utcMillis 2024 1 1 0 0)
    segments := some [⟨some 60⟩, ⟨some 30⟩]
    delays := some [⟨some 15⟩]
    nextSegmentId := none
    createdAt := none
    lastUpdated := none
    expiresAt := none }



/-- Rows and jobs used to instantiate the theorems below. -/
def c2RowA : Row :=
  { job_id := "A", name := "a", start_time := none, segments := none,
    delays := none, next_segment_id := none, created_at := none,
    last_updated := none, expires_at := some 1 }

/-- A row with no expiration, hence never purged. -/
def c2RowB : Row :=
  { job_id := "B", name := "b", start_time := none, segments := none,
    delays := none, next_segment_id := none, created_at := none,
    last_updated := none, expires_at := none }

/-- A job whose caller-side lastUpdated and expiresAt are absent. -/
def c4Job : Job :=
  { id := "J4", name := "n", startTime := some 0, segments := some [],
    delays := none, nextSegmentId := none, createdAt := none,
    lastUpdated := none, expiresAt := none }

/-- A minimal job body for the POST route. -/
def c5Job : Job :=
  { id := "J5", name := "n", startTime := none, segments := none,
    delays := none, nextSegmentId := none, createdAt := none,
    lastUpdated := none, expiresAt := none }

/-- A stored row whose previous last_updated is 3. -/
def c6Row : Row :=
  { job_id := "J6", name := "n", start_time := none, segments := none,
    delays := none, next_segment_id := none, created_at := some 1,
    last_updated := some 3, expires_at := none }

/-- An update body targeting `c6Row`. -/
def c6Job : Job :=
  { id := "J6", name := "m", startTime := none, segments := none,
    delays := none, nextSegmentId := none, createdAt := none,
    lastUpdated := none, expiresAt := none }

/-- A single stored row for the listing route. -/
def c7Row : Row :=
  { job_id := "J7", name := "n", start_time := none, segments := none,
    delays := none, next_segment_id := none, created_at := none,
    last_updated := none, expires_at := none }

/-- An update body aimed at an id no stored row carries. -/
def c10Job : Job :=
  { id := "J10", name := "n", startTime := none, segments := none,
    delays := none, nextSegmentId := none, createdAt := none,
    lastUpdated := none, expiresAt := none }

/-! ### Helper lemmas -/

/-- Every entry of `objSet m k v` is an old entry of `m` or the new pair. -/
lemma objSet_mem {m : List (String × Job)} {k : String} {v : Job}
    {p : String × Job} (hp : p ∈ objSet m k v) : p ∈ m ∨ p = (k, v) := by
  unfold objSet at hp
  split at hp
  · rcases List.mem_map.mp hp with ⟨q, hq, hpq⟩
    by_cases h : q.1 = k
    · simp [h] at hpq
      exact Or.inr hpq.symm
    · simp [h] at hpq
      exact Or.inl (hpq ▸ hq)
  · rcases List.mem_append.mp hp with h | h
    · exact Or.inl h
    · simp at h
      exact Or.inr h

/-- Every entry of the object built by `getAllJobs` comes from a row of the
adapter payload (or from the accumulator it was seeded with). -/
lemma getAllJobs_fold_mem (l : List Row) (m : List (String × Job)) :
    ∀ p ∈ l.foldl (fun m r => objSet m r.job_id (rowToJob r)) m,
      p ∈ m ∨ ∃ r ∈ l, p = (r.job_id, rowToJob r) := by
  induction l generalizing m with
  | nil => exact fun p hp => Or.inl hp
  | cons r t ih =>
    intro p hp
    rcases ih (objSet m r.job_id (rowToJob r)) p hp with h | ⟨r', hr', hpr⟩
    · rcases objSet_mem h with h' | h'
      · exact Or.inl h'
      · exact Or.inr ⟨r, List.mem_cons_self r t, h'⟩
    · exact Or.inr ⟨r', List.mem_cons_of_mem r hr', hpr⟩

/-- A PATCH whose id filter matches no row leaves the store unchanged. -/
lemma patchById_no_match {store : List Row} {id : String} (job : Job) (now : Int)
    (h : ∀ r ∈ store, r.job_id ≠ id) : patchById store id job now = store := by
  induction store with
  | nil => rfl
  | cons r t ih =>
    have hr : r.job_id ≠ id := h r (List.mem_cons_self r t)
    have ht : ∀ r' ∈ t, r'.job_id ≠ id := fun r' hr' => h r' (List.mem_cons_of_mem r hr')
    simp [patchById, hr, List.map] at *
    exact ih ht

/-- The per-row partial update never writes the `job_id` column. -/
lemma patchById_map_job_id (store : List Row) (id : String) (job : Job) (now : Int) :
    (patchById store id job now).map Row.job_id = store.map Row.job_id := by
  induction store with
  | nil => rfl
  | cons r t ih =>
    by_cases h : r.job_id = id <;>
      simp [patchById, h, applyUpdateRow, List.map] at * <;> exact ih

/-- The per-row partial update never writes the `created_at` column. -/
lemma patchById_map_created_at (store : List Row) (id : String) (job : Job) (now : Int) :
    (patchById store id job now).map Row.created_at = store.map Row.created_at := by
  induction store with
  | nil => rfl
  | cons r t ih =>
    by_cases h : r.job_id = id <;>
      simp [patchById, h, applyUpdateRow, List.map] at * <;> exact ih

/-- After deleting by id, no row with that id remains. -/
lemma deleteById_no_match (store : List Row) (id : String) :
    (deleteById store id).filter (fun r => r.job_id = id) = [] := by
  rw [List.filter_eq_nil_iff]
  intro r hr
  have := List.of_mem_filter hr
  simp at this ⊢
  exact this

/-- The cleanup filter is false exactly when the row has no expiry strictly
below the reference time. -/
lemma expiredAt_false_iff (now : Int) (r : Row) :
    expiredAt now r = false ↔ ¬ (∃ e, r.expires_at = some e ∧ e < now) := by
  cases he : r.expires_at with
  | none => simp [expiredAt, he]
  | some e => simp [expiredAt, he]

/-! ### Claims -/

/-- C1 counterexample: the spec's example job J1 expires 1545 minutes after
its start — 2024-01-02T01:45:00Z — and not at 2024-01-02T02:45:00Z as the
claim asserts. -/
theorem C1_counterexample :
    calculateExpiresAt exampleJob = some (utcMillis 2024 1 2 1 45) ∧
    utcMillis 2024 1 2 1 45 ≠ utcMillis 2024 1 2 2 45 :=
  ⟨rfl, by decide⟩

/-- C1 (amended): the expiration computation is a pure function of
`startTime`, `segments` and `delays`: an absent start yields an absent
expiry, otherwise the expiry is the start plus the summed segment durations,
summed delay minutes and the 1440-minute grace period (missing numeric
fields counting as 0); on the spec's example job J1 this gives
2024-01-02T01:45:00Z. -/
theorem C1_expiresAt_formula (job : Job) :
    calculateExpiresAt job
      = job.startTime.map
          (fun start =>
            start + (segmentMinutes job.segments + delayMinutes job.delays + 24 * 60) * 60000) ∧
    calculateExpiresAt exampleJob = some (utcMillis 2024 1 2 1 45) := by
  constructor
  · cases h : job.startTime <;> simp [calculateExpiresAt, h]
  · rfl

/-- C2: a successful cleanup at reference time `now` retains exactly the
rows whose `expires_at` is null or not strictly below `now`, keeps the
survivors in their original order and multiplicity (sublist), and running it
again at the same reference time deletes nothing. -/
theorem C2_cleanup_exact (store : List Row) (now : Int) :
    (∀ r : Row, r ∈ cleanupExpiredJobs store now true ↔
        r ∈ store ∧ ¬ (∃ e, r.expires_at = some e ∧ e < now)) ∧
    (cleanupExpiredJobs store now true).Sublist store ∧
    cleanupExpiredJobs (cleanupExpiredJobs store now true) now true
      = cleanupExpiredJobs store now true := by
  refine ⟨fun r => ?_, ?_, ?_⟩
  · simp only [cleanupExpiredJobs, if_true, List.mem_filter, Bool.not_eq_true']
    rw [expiredAt_false_iff]
  · exact List.filter_sublist store
  · simp [cleanupExpiredJobs, List.filter_filter]

/-- Witness for C2 at a two-row store, one expired row, reference time 5. -/
theorem C2_cleanup_exact_witness :
    (∀ r : Row, r ∈ cleanupExpiredJobs [c2RowA, c2RowB] 5 true ↔
        r ∈ [c2RowA, c2RowB] ∧ ¬ (∃ e, r.expires_at = some e ∧ e < 5)) ∧
    (cleanupExpiredJobs [c2RowA, c2RowB] 5 true).Sublist [c2RowA, c2RowB] ∧
    cleanupExpiredJobs (cleanupExpiredJobs [c2RowA, c2RowB] 5 true) 5 true
      = cleanupExpiredJobs [c2RowA, c2RowB] 5 true :=
  C2_cleanup_exact [c2RowA, c2RowB] 5

/-- C3: the row inserted by createJob and the PATCH body of updateJob both
carry `expires_at = calculateExpiresAt` of the supplied job, and the
computation ignores any caller-supplied `expiresAt`, which is therefore
never independently settable. -/
theorem C3_expiresAt_recomputed (job : Job) (now : Int) (row : Row) :
    (createRow job now).expires_at = calculateExpiresAt job ∧
    (applyUpdateRow row job now).expires_at = calculateExpiresAt job ∧
    ∀ e : Option Int,
      calculateExpiresAt { job with expiresAt := e } = calculateExpiresAt job :=
  ⟨rfl, rfl, fun _ => rfl⟩

/-- C4 counterexample: createJob at current time 5, on a job whose
caller-side lastUpdated and expiresAt are absent, returns that job
unchanged, so the returned value carries neither the server-assigned
lastUpdated nor the recomputed expiresAt. -/
theorem C4_counterexample :
    (createJob [] c4Job 5 true).1 = some c4Job ∧
    c4Job.lastUpdated ≠ some 5 ∧
    c4Job.expiresAt ≠ calculateExpiresAt c4Job :=
  ⟨rfl, by decide, by decide⟩

/-- C4 (amended): on success createJob inserts a row whose `created_at` is
the supplied createdAt (the current time when it is absent or zero), whose
`last_updated` is the current time and whose `expires_at` is the recomputed
expiration, but it returns the supplied job object unchanged — the return
value carries the server-assigned timestamps only if the caller already
supplied them. -/
theorem C4_create_returns_input (store : List Row) (job : Job) (now : Int) :
    createJob store job now true = (some job, store ++ [createRow job now]) ∧
    (createRow job now).created_at = some (jsOr job.createdAt now) ∧
    (createRow job now).last_updated = some now ∧
    (createRow job now).expires_at = calculateExpiresAt job :=
  ⟨rfl, rfl, rfl, rfl⟩

/-- C5 counterexample: with a parsed body and a failing adapter call, the
POST /api/jobs route still answers 201 — not a 500-class status. -/
theorem C5_counterexample :
    (postJobsRoute [] (some c5Job) 0 false).1 = 201 ∧
    ¬ 500 ≤ (postJobsRoute [] (some c5Job) 0 false).1 :=
  ⟨rfl, by decide⟩

/-- C5 (amended): when the adapter call underlying createJob fails, the POST
route still responds 201 and its body is the serialization of null (the
store left untouched); a 500 arises only when the request body fails to
parse. -/
theorem C5_post_201_on_adapter_failure (store : List Row) (job : Job) (now : Int) :
    postJobsRoute store (some job) now false
      = (201, RespBody.jsonOf none, store) ∧
    ∀ ok : Bool, (postJobsRoute store none now ok).1 = 500 :=
  ⟨rfl, fun _ => rfl⟩

/-- C6: a successful updateJob never writes the `job_id` or `created_at`
column of any stored row, and it sets the patched row's `last_updated` to
the current time, which under a monotone clock is at least the row's
previous `last_updated`. -/
theorem C6_update_frame (store : List Row) (id : String) (job : Job) (now : Int)
    (row : Row) (prev : Int) (_hprev : row.last_updated = some prev)
    (hclock : prev ≤ now) :
    ((updateJob store id job now true).2).map Row.job_id = store.map Row.job_id ∧
    ((updateJob store id job now true).2).map Row.created_at
      = store.map Row.created_at ∧
    (applyUpdateRow row job now).last_updated = some now ∧
    ∃ t, (applyUpdateRow row job now).last_updated = some t ∧ prev ≤ t := by
  refine ⟨?_, ?_, rfl, now, rfl, hclock⟩
  · simpa [updateJob] using patchById_map_job_id store id job now
  · simpa [updateJob] using patchById_map_created_at store id job now

/-- Witness for C6 at a one-row store with previous last_updated 3, clock 10. -/
theorem C6_update_frame_witness :
    c6Row.last_updated = some 3 ∧ (3 : Int) ≤ 10 ∧
    (((updateJob [c6Row] "J6" c6Job 10 true).2).map Row.job_id
        = [c6Row].map Row.job_id ∧
     ((updateJob [c6Row] "J6" c6Job 10 true).2).map Row.created_at
        = [c6Row].map Row.created_at ∧
     (applyUpdateRow c6Row c6Job 10).last_updated = some 10 ∧
     ∃ t, (applyUpdateRow c6Row c6Job 10).last_updated = some t ∧ (3 : Int) ≤ t) :=
  ⟨rfl, by decide, C6_update_frame [c6Row] "J6" c6Job 10 c6Row 3 rfl (by decide)⟩

/-- C7: the jobs listing route always answers 200 with a mapping; the
mapping is empty when the adapter call failed, and on success every entry of
the mapping is the `job_id` of a returned row paired with that row's
conversion to a Job. -/
theorem C7_getAllJobs_best_effort (rows : Option (List Row)) :
    (getJobsRoute rows).1 = 200 ∧
    getAllJobs none = [] ∧
    ∀ l, rows = some l →
      ∀ p ∈ getAllJobs rows, ∃ r ∈ l, p = (r.job_id, rowToJob r) := by
  refine ⟨rfl, rfl, ?_⟩
  rintro l rfl p hp
  rcases getAllJobs_fold_mem l [] p hp with h | h
  · exact absurd h (List.not_mem_nil p)
  · exact h

/-- Witness for C7 at a one-row adapter payload. -/
theorem C7_getAllJobs_witness :
    (getJobsRoute (some [c7Row])).1 = 200 ∧
    getAllJobs none = [] ∧
    (∀ l, some [c7Row] = some l →
      ∀ p ∈ getAllJobs (some [c7Row]), ∃ r ∈ l, p = (r.job_id, rowToJob r)) :=
  C7_getAllJobs_best_effort (some [c7Row])

/-- C8: a successful deleteJob followed by getJob on the same id (whether
that read succeeds or fails) yields absent, and deleteJob's boolean result
equals the adapter outcome for every store — matching row present or not. -/
theorem C8_delete_then_get (store : List Row) (id : String) (ok ok2 : Bool) :
    getJob (deleteJob store id true).2 id ok2 = none ∧
    (deleteJob store id ok).1 = ok := by
  constructor
  · cases ok2 with
    | false => rfl
    | true =>
      have h := deleteById_no_match store id
      simp [getJob, deleteJob, h]
  · cases ok <;> rfl

/-- C9: the cleanup schedule fires once at process start (invocation 0 at
offset 0 ms) and thereafter at a fixed period: the registered interval is
3600 seconds, and consecutive invocations are exactly that far apart, with
no dependence on request handling. -/
theorem C9_scheduler_period (n : Nat) :
    schedulerInvocationMs 0 = 0 ∧
    cleanupIntervalMs = 3600 * 1000 ∧
    schedulerInvocationMs (n + 1) = schedulerInvocationMs n + 3600 * 1000 := by
  refine ⟨rfl, rfl, ?_⟩
  simp only [schedulerInvocationMs, cleanupIntervalMs]
  omega

/-- C10: with a parsed body and a successful adapter call, the PUT route
answers 200 and echoes the supplied job merged with the new lastUpdated even
when no stored row matches the id (the store then stays unchanged); the 404
branch fires exactly when the adapter call fails. -/
theorem C10_put_unmatched_id (store : List Row) (id : String) (job : Job)
    (now : Int) (hnone : ∀ r ∈ store, r.job_id ≠ id) :
    putJobRoute store id (some job) now true
      = (200, RespBody.jsonOf (some { job with lastUpdated := some now }), store) ∧
    ∀ ok : Bool, ((putJobRoute store id (some job) now ok).1 = 404 ↔ ok = false) := by
  constructor
  · simp [putJobRoute, updateJob, patchById_no_match job now hnone]
  · intro ok
    cases ok <;> simp [putJobRoute, updateJob]

/-- Witness for C10 at the empty store, where no row matches the id. -/
theorem C10_put_unmatched_id_witness :
    (∀ r ∈ ([] : List Row), r.job_id ≠ "J10") ∧
    (putJobRoute [] "J10" (some c10Job) 7 true
        = (200, RespBody.jsonOf (some { c10Job with lastUpdated := some 7 }), []) ∧
     ∀ ok : Bool, ((putJobRoute [] "J10" (some c10Job) 7 ok).1 = 404 ↔ ok = false)) :=
  ⟨fun r hr => absurd hr (List.not_mem_nil r),
   C10_put_unmatched_id [] "J10" c10Job 7 (fun r hr => absurd hr (List.not_mem_nil r))⟩

end RoadTracker
